import Mathlib

/-!
Shallow embedding of `src/dataset/dbengine.py` (HoloClean's `DBengine`
wrapper around a PostgreSQL engine).

The database itself is external; it is modelled by an oracle
`Behavior : Option Int → String → QueryOutcome` giving, for a session whose
current `statement_timeout` setting is the first argument, the outcome of
executing the SQL text given as the second argument.  A connection is
modelled as the statements executed on it, its session `statement_timeout`
state (mutated only by executing a `SET statement_timeout` statement, and
persisting for the rest of the session, as in PostgreSQL), and whether it
has been closed.  Python exceptions are modelled with `Except`:
`_execute_query` and friends return a `TaskRun` pairing the call's outcome
(normal return or propagated exception) with the final connection state.

`multiprocessing.Pool.map` is modelled by `poolMapSched`: the pool executes
the tasks in an arbitrary order (the `sched : List Nat` parameter), each
task's value being written into the slot of its submission index, and the
`map` call returns the slots in index order.  Real pool schedules are
permutations of the index range; `poolMapSched` returns `none` on a
schedule that misses a slot.
-/

namespace HoloClean

/-- A materialized result set: rows as lists of column values
(`fetchall()` in the source). -/
abbrev Rows := List (List String)

/-- Outcome of executing one SQL statement on the external database:
rows, cancellation by the statement timeout
(`psycopg2.extensions.QueryCanceledError`), or any other driver error. -/
inductive QueryOutcome where
  | ok (rows : Rows)
  | canceled
  | err (msg : String)
deriving DecidableEq, Repr

/-- A Python exception propagating out of a call. -/
inductive PyErr where
  | queryCanceled
  | dbError (msg : String)
deriving DecidableEq, Repr

/-- The database oracle: outcome of a query given the session's current
`statement_timeout` setting (`none` = never set on this connection). -/
abbrev Behavior := Option Int → String → QueryOutcome

/-- The text of the timeout statement issued by `_execute_query_w_backup`:
`"SET statement_timeout to %d;" % timeout`. -/
def setTimeoutStmt (timeout : Int) : String :=
  "SET statement_timeout to " ++ toString timeout ++ ";"

/-- A database connection: statements executed so far (in order), the
session `statement_timeout` state, and whether the connection was closed. -/
structure Conn where
  sessionTimeout : Option Int
  trace : List String
  closed : Bool
deriving DecidableEq, Repr

/-- A fresh connection (`engine.connect()`). -/
def Conn.fresh : Conn := ⟨none, [], false⟩

/-- Execute the `SET statement_timeout` statement on a connection: the
setting persists on the session until changed. -/
def Conn.runSet (c : Conn) (t : Int) : Conn :=
  { c with sessionTimeout := some t, trace := c.trace ++ [setTimeoutStmt t] }

/-- Execute a query on a connection (`conn.execute(q)`): the statement is
recorded on the connection and its outcome is given by the oracle at the
session's current timeout setting. -/
def Conn.runQuery (c : Conn) (behave : Behavior) (q : String) : Conn × QueryOutcome :=
  ({ c with trace := c.trace ++ [q] }, behave c.sessionTimeout q)

/-- Close the connection (`conn.close()`). -/
def Conn.close (c : Conn) : Conn := { c with closed := true }

instance {ε α : Type} [DecidableEq ε] [DecidableEq α] :
    DecidableEq (Except ε α) := fun x y =>
  match x, y with
  | .ok a, .ok b =>
    if h : a = b then .isTrue (h ▸ rfl) else .isFalse (fun hh => h (by cases hh; rfl))
  | .error a, .error b =>
    if h : a = b then .isTrue (h ▸ rfl) else .isFalse (fun hh => h (by cases hh; rfl))
  | .ok _, .error _ => .isFalse nofun
  | .error _, .ok _ => .isFalse nofun

/-- Result of one worker-function call: the value returned (or the
exception propagated), together with the final state of the connection the
call used. -/
structure TaskRun where
  result : Except PyErr Rows
  conn : Conn
deriving DecidableEq, Repr

/-- Embeds `_execute_query(args, conn_uri, conn_args)` from the source: opens a
fresh connection in a `with` block, runs the query, returns the rows.
There is no `try`/`except`, so any failure propagates; the `with` block
closes the connection on every path. `args` is `(idx, query)`; the index
is used only for logging. -/
def _execute_query (behave : Behavior) (args : Nat × String) : TaskRun :=
  let conn := Conn.fresh
  let step := conn.runQuery behave args.2
  match step.2 with
  | .ok rows => ⟨.ok rows, step.1.close⟩
  | .canceled => ⟨.error .queryCanceled, step.1.close⟩
  | .err m => ⟨.error (.dbError m), step.1.close⟩

/-- Embeds `_execute_query_w_backup(args, conn_uri, conn_args, timeout)` from the
source: opens a fresh connection in a `with` block, issues
`SET statement_timeout to <timeout>;`, runs the primary query; on
`QueryCanceledError`, returns `[]` when the backup is absent/empty
(`if not query_backup`), otherwise runs the backup on the same connection
(no second `SET`); only the primary's cancellation is caught, so any
failure of the backup propagates. `args` is `(idx, (query, query_backup))`. -/
def _execute_query_w_backup (behave : Behavior) (timeout : Int)
    (args : Nat × (String × String)) : TaskRun :=
  let query := args.2.1
  let query_backup := args.2.2
  let conn := (Conn.fresh).runSet timeout
  let step := conn.runQuery behave query
  match step.2 with
  | .ok rows => ⟨.ok rows, step.1.close⟩
  | .err m => ⟨.error (.dbError m), step.1.close⟩
  | .canceled =>
    if query_backup = "" then ⟨.ok [], step.1.close⟩
    else
      let step2 := step.1.runQuery behave query_backup
      match step2.2 with
      | .ok rows => ⟨.ok rows, step2.1.close⟩
      | .canceled => ⟨.error .queryCanceled, step2.1.close⟩
      | .err m => ⟨.error (.dbError m), step2.1.close⟩

/-- The engine state set up by `DBengine.__init__`: the stored timeout, the
connection URI, the generated schema name, and whether a worker pool was
created (`self._pool = Pool(pool_size) if pool_size > 1 else None`). -/
structure DBengine where
  timeout : Int
  hasPool : Bool
  conn : String
  dbschema : String
deriving DecidableEq, Repr

/-- Embeds `DBengine.__init__(sqlalchemy_uri, pool_size=20, timeout=60000)`.
The schema name comes from a wall-clock hash (`generate_hash`), so it is a
parameter of the model.  The constructor performs no validation of
`pool_size` or `timeout`: it stores `timeout` unchanged and builds a pool
exactly when `pool_size > 1`.  The `Except` wrapper is the Python exception
channel; no configuration error is ever raised. -/
def DBengine.init (sqlalchemy_uri : String) (pool_size : Int) (timeout : Int)
    (dbschema : String) : Except PyErr DBengine :=
  .ok { timeout := timeout, hasPool := decide (pool_size > 1),
        conn := sqlalchemy_uri, dbschema := dbschema }

/-- Slot-filling model of the pool: the schedule lists the indices that
workers pick up, in completion order; each completed task writes its value
into the slot of its submission index. -/
def fillSlots {α β : Type} (f : α → β) (xs : List α) :
    List Nat → List (Option β) → List (Option β)
  | [], acc => acc
  | i :: rest, acc =>
    match xs[i]? with
    | some x => fillSlots f xs rest (acc.set i (some (f x)))
    | none => fillSlots f xs rest acc

/-- Gather the filled slots; `none` if any slot was never written. -/
def allSome {β : Type} : List (Option β) → Option (List β)
  | [] => some []
  | none :: _ => none
  | some b :: rest => (allSome rest).map (b :: ·)

/-- Embeds `multiprocessing.Pool.map(f, xs)`: tasks execute in an arbitrary order
`sched`, results are gathered by submission index; `none` if the schedule
misses a slot (real pools schedule every task exactly once). -/
def poolMapSched {α β : Type} (f : α → β) (xs : List α) (sched : List Nat) :
    Option (List β) :=
  allSome (fillSlots f xs sched (List.replicate xs.length none))

/-- Embeds `DBengine._apply_func(func, collection)` from the source:
`list(map(func, collection))` when `self._pool is None`, else
`self._pool.map(func, collection)`.  `sched` is the pool's execution
order, irrelevant in the sequential branch. -/
def DBengine._apply_func {α β : Type} (eng : DBengine) (sched : List Nat)
    (f : α → β) (collection : List α) : Option (List β) :=
  if eng.hasPool then poolMapSched f collection sched
  else some (collection.map f)

/-- Gathering the worker calls' outcomes into the value of the batch call:
each worker returning normally contributes its rows; a worker that raised
makes the batch call itself raise (the sequential branch stops at the
first raising task; `Pool.map` re-raises the first failed task's error). -/
def collectBatch : List TaskRun → Except PyErr (List Rows)
  | [] => .ok []
  | r :: rs =>
    match r.result with
    | .error e => .error e
    | .ok rows =>
      match collectBatch rs with
      | .error e => .error e
      | .ok rest => .ok (rows :: rest)

/-- Embeds `DBengine.execute_queries(queries)`: applies `_execute_query` to the
enumerated queries through `_apply_func`. -/
def DBengine.execute_queries (eng : DBengine) (behave : Behavior)
    (sched : List Nat) (queries : List String) :
    Option (Except PyErr (List Rows)) :=
  (eng._apply_func sched (_execute_query behave) queries.enum).map collectBatch

/-- Embeds `DBengine.execute_queries_w_backup(queries)`: applies
`_execute_query_w_backup` (with the engine's stored timeout) to the
enumerated (query, backup) pairs through `_apply_func`. -/
def DBengine.execute_queries_w_backup (eng : DBengine) (behave : Behavior)
    (sched : List Nat) (queries : List (String × String)) :
    Option (Except PyErr (List Rows)) :=
  (eng._apply_func sched (_execute_query_w_backup behave eng.timeout)
    queries.enum).map collectBatch

/-- Embeds `DBengine.execute_query(query)` (single-query convenience) from the
source.  Note there is no `with` block and no `try`/`finally`:
`conn.close()` is reached only when `conn.execute(query).fetchall()`
returned normally. -/
def DBengine.execute_query (eng : DBengine) (behave : Behavior)
    (query : String) : TaskRun :=
  let conn := Conn.fresh
  let step := conn.runQuery behave query
  match step.2 with
  | .ok rows => ⟨.ok rows, step.1.close⟩
  | .canceled => ⟨.error .queryCanceled, step.1⟩
  | .err m => ⟨.error (.dbError m), step.1⟩

/-- Embeds `drop_table_template = Template('DROP TABLE IF EXISTS "$table"')`. -/
def drop_table_template (table : String) : String :=
  "DROP TABLE IF EXISTS \"" ++ table ++ "\""

/-- Embeds `create_table_template = Template('CREATE TABLE "$table" AS ($stmt)')`. -/
def create_table_template (table stmt : String) : String :=
  "CREATE TABLE \"" ++ table ++ "\" AS (" ++ stmt ++ ")"

/-- Embeds `index_template = Template('CREATE INDEX $idx_title ON "$table" ($attrs)')`. -/
def index_template (idx_title table attrs : String) : String :=
  "CREATE INDEX " ++ idx_title ++ " ON \"" ++ table ++ "\" (" ++ attrs ++ ")"

/-- Result of a DDL convenience call: the returned value (or propagated
exception) and the final connection state. -/
structure DDLRun where
  result : Except PyErr Bool
  conn : Conn
deriving Repr

/-- Embeds `DBengine.create_db_table_from_query(name, query)` from the source:
substitutes the two templates, opens a connection, executes the drop then
the create, closes the connection, returns `True`.  No `with` block and no
transaction wrapper: each statement is executed (and autocommitted)
separately, and an exception skips both the remaining statements and
`conn.close()`. -/
def DBengine.create_db_table_from_query (eng : DBengine) (behave : Behavior)
    (name query : String) : DDLRun :=
  let dropStmt := drop_table_template name
  let createStmt := create_table_template name query
  let conn := Conn.fresh
  let step := conn.runQuery behave dropStmt
  match step.2 with
  | .canceled => ⟨.error .queryCanceled, step.1⟩
  | .err m => ⟨.error (.dbError m), step.1⟩
  | .ok _ =>
    let step2 := step.1.runQuery behave createStmt
    match step2.2 with
    | .ok _ => ⟨.ok true, step2.1.close⟩
    | .canceled => ⟨.error .queryCanceled, step2.1⟩
    | .err m => ⟨.error (.dbError m), step2.1⟩

/-- The quoting applied to each attribute in `create_db_index`:
`'"{}"'.format(attr)`. -/
def quoteAttr (attr : String) : String := "\"" ++ attr ++ "\""

/-- The statement built by `DBengine.create_db_index(name, table,
attr_list)`: the index template over the comma-joined quoted attributes. -/
def DBengine.create_db_index_stmt (name table : String)
    (attr_list : List String) : String :=
  index_template name table (String.intercalate "," (attr_list.map quoteAttr))

/-- Embeds `DBengine.create_db_index(name, table, attr_list)` from the source:
builds the statement, opens a connection, executes it, closes the
connection (again only on the success path). -/
def DBengine.create_db_index (eng : DBengine) (behave : Behavior)
    (name table : String) (attr_list : List String) : DDLRun :=
  let stmt := DBengine.create_db_index_stmt name table attr_list
  let conn := Conn.fresh
  let step := conn.runQuery behave stmt
  match step.2 with
  | .ok _ => ⟨.ok true, step.1.close⟩
  | .canceled => ⟨.error .queryCanceled, step.1⟩
  | .err m => ⟨.error (.dbError m), step.1⟩

/-- Run a list of statements against a table-set semantics `sem`
(`sem s tables = none` means statement `s` fails there).  Execution is
sequential without any enclosing transaction: the first failure stops
execution and leaves the state already reached — earlier statements are
not rolled back. -/
def runStmts (sem : String → List String → Option (List String)) :
    List String → List String → List String × Bool
  | tables, [] => (tables, true)
  | tables, s :: rest =>
    match sem s tables with
    | some t2 => runStmts sem t2 rest
    | none => (tables, false)

/-- The statement shape given by the spec for `create_index`:
`CREATE INDEX <idx_name> ON "<table>" (<quoted_col1>,<quoted_col2>,...)`,
built by direct recursion over the column list. -/
def specQuotedCols : List String → String
  | [] => ""
  | [c] => "\"" ++ c ++ "\""
  | c :: cs => "\"" ++ c ++ "\"" ++ "," ++ specQuotedCols cs

/-- Spec-side index statement (for the refinement comparison in C9). -/
def specIndexStmt (idx_name table : String) (cols : List String) : String :=
  "CREATE INDEX " ++ idx_name ++ " ON \"" ++ table ++ "\" (" ++
    specQuotedCols cols ++ ")"

/-! ### Helper lemmas about the pool model and batch gathering -/

/-- Rows carried by a normally returning task (`[]` for a raising one,
never the case where it is used). -/
def okRows (r : TaskRun) : Rows :=
  match r.result with
  | .ok rs => rs
  | .error _ => []

theorem fillSlots_length {α β : Type} (f : α → β) (xs : List α)
    (sched : List Nat) (acc : List (Option β)) :
    (fillSlots f xs sched acc).length = acc.length := by
  induction sched generalizing acc with
  | nil => rfl
  | cons i rest ih =>
    cases h : xs[i]? with
    | some x => simp [fillSlots, h, ih]
    | none => simp [fillSlots, h, ih]

theorem fillSlots_getElem? {α β : Type} (f : α → β) (xs : List α)
    (sched : List Nat) (acc : List (Option β)) (hlen : acc.length = xs.length)
    (j : Nat) (hj : j < xs.length) :
    (fillSlots f xs sched acc)[j]? =
      if j ∈ sched then some (some (f (xs.get ⟨j, hj⟩))) else acc[j]? := by
  induction sched generalizing acc with
  | nil => simp [fillSlots]
  | cons i rest ih =>
    by_cases hi : i < xs.length
    · have hx : xs[i]? = some (xs.get ⟨i, hi⟩) := List.getElem?_eq_getElem hi
      have hstep : fillSlots f xs (i :: rest) acc =
          fillSlots f xs rest (acc.set i (some (f (xs.get ⟨i, hi⟩)))) := by
        simp [fillSlots, hx]
      rw [hstep, ih _ (by simp [hlen])]
      by_cases hmem : j ∈ rest
      · simp [hmem]
      · by_cases hij : j = i
        · subst hij
          simp [hmem, List.getElem?_set, hlen, hj]
        · simp [hmem, hij, List.getElem?_set, Ne.symm hij]
    · have hx : xs[i]? = none := List.getElem?_eq_none (le_of_not_lt hi)
      have hstep : fillSlots f xs (i :: rest) acc = fillSlots f xs rest acc := by
        simp [fillSlots, hx]
      have hij : j ≠ i := by omega
      rw [hstep, ih _ hlen]
      by_cases hmem : j ∈ rest <;> simp [hmem, hij]

theorem allSome_map_some {α β : Type} (g : α → β) (xs : List α) :
    allSome (xs.map (fun x => some (g x))) = some (xs.map g) := by
  induction xs with
  | nil => rfl
  | cons a rest ih => simp [allSome, ih]

theorem poolMapSched_perm {α β : Type} (f : α → β) (xs : List α)
    (sched : List Nat) (hperm : sched.Perm (List.range xs.length)) :
    poolMapSched f xs sched = some (xs.map f) := by
  have hfill : fillSlots f xs sched (List.replicate xs.length none) =
      xs.map (fun x => some (f x)) := by
    apply List.ext_getElem?
    intro j
    by_cases hj : j < xs.length
    · have hmem : j ∈ sched := hperm.mem_iff.2 (List.mem_range.2 hj)
      rw [fillSlots_getElem? f xs sched _ (by simp) j hj]
      simp [hmem, List.getElem?_eq_getElem, hj]
    · have h1 : xs.length ≤ j := le_of_not_lt hj
      rw [List.getElem?_eq_none (by simpa [fillSlots_length] using h1),
        List.getElem?_eq_none (by simpa using h1)]
  rw [poolMapSched, hfill, allSome_map_some]

theorem _apply_func_perm {α β : Type} (eng : DBengine) (sched : List Nat)
    (f : α → β) (xs : List α)
    (hperm : sched.Perm (List.range xs.length)) :
    eng._apply_func sched f xs = some (xs.map f) := by
  unfold DBengine._apply_func
  cases eng.hasPool <;> simp [poolMapSched_perm f xs sched hperm]

theorem collectBatch_ok (runs : List TaskRun)
    (hok : ∀ r ∈ runs, ∃ rs, r.result = Except.ok rs) :
    collectBatch runs = .ok (runs.map okRows) := by
  induction runs with
  | nil => rfl
  | cons r rest ih =>
    obtain ⟨rs, hr⟩ := hok r (by simp)
    have ih2 := ih (fun r' h' => hok r' (by simp [h']))
    simp [collectBatch, hr, ih2, okRows]

theorem collectBatch_error (rs1 rs2 : List TaskRun) (r : TaskRun) (e : PyErr)
    (hok : ∀ x ∈ rs1, ∃ rows, x.result = Except.ok rows)
    (herr : r.result = .error e) :
    collectBatch (rs1 ++ r :: rs2) = .error e := by
  induction rs1 with
  | nil => simp [collectBatch, herr]
  | cons a rest ih =>
    obtain ⟨rows, ha⟩ := hok a (by simp)
    have ih2 := ih (fun x hx => hok x (by simp [hx]))
    simp [collectBatch, ha, ih2]

/-- A batch whose tasks all return normally yields, through `_apply_func`
and gathering, the in-order list of each task's rows — for any pool
schedule that is a permutation of the indices. -/
theorem batch_ok {α : Type} (eng : DBengine) (sched : List Nat)
    (f : α → TaskRun) (xs : List α)
    (hperm : sched.Perm (List.range xs.length))
    (hok : ∀ x ∈ xs, ∃ rs, (f x).result = Except.ok rs) :
    ((eng._apply_func sched f xs).map collectBatch) =
      some (.ok (xs.map (fun x => okRows (f x)))) := by
  rw [_apply_func_perm eng sched f xs hperm]
  have hcb : collectBatch (xs.map f) = .ok ((xs.map f).map okRows) := by
    apply collectBatch_ok
    intro r hr
    obtain ⟨x, hx, rfl⟩ := List.mem_map.1 hr
    exact hok x hx
  simp [hcb, List.map_map, Function.comp]

/-- Tail form of the spec's quoted column list (proof helper). -/
def quotedTail : List String → String
  | [] => ""
  | c :: cs => "," ++ quoteAttr c ++ quotedTail cs

theorem intercalate_go_quoted (l : List String) (acc : String) :
    String.intercalate.go acc "," (l.map quoteAttr) = acc ++ quotedTail l := by
  induction l generalizing acc with
  | nil => simp [String.intercalate.go, quotedTail]
  | cons c cs ih =>
    simp only [List.map_cons, String.intercalate.go, quotedTail, ih,
      String.append_assoc]

theorem specQuotedCols_cons (c : String) (cs : List String) :
    specQuotedCols (c :: cs) = quoteAttr c ++ quotedTail cs := by
  induction cs generalizing c with
  | nil => simp [specQuotedCols, quotedTail, quoteAttr]
  | cons d ds ih =>
    simp only [specQuotedCols, quotedTail, quoteAttr, String.append_assoc, ih d]

theorem intercalate_quoted_eq_spec (l : List String) :
    String.intercalate "," (l.map quoteAttr) = specQuotedCols l := by
  cases l with
  | nil => rfl
  | cons c cs =>
    simp only [List.map_cons, String.intercalate, intercalate_go_quoted,
      specQuotedCols_cons]

/-! ### Claim theorems -/

/-- C9: for every call to `create_db_index` with any attribute list
(including mixed-case column names), every column identifier in the issued
statement is double-quoted, and the statement has exactly the shape
`CREATE INDEX <idx_name> ON "<table>" (<quoted_col1>,<quoted_col2>,...)`:
the statement the code builds coincides, for all inputs, with the
spec-shaped statement built by quoting each column. -/
theorem C9_create_index_quoted (name table : String) (attr_list : List String) :
    DBengine.create_db_index_stmt name table attr_list =
      specIndexStmt name table attr_list := by
  unfold DBengine.create_db_index_stmt specIndexStmt index_template
  rw [intercalate_quoted_eq_spec]

/-- C3: a primary query cancelled by the statement timeout, with a
non-empty fallback present, makes `_execute_query_w_backup` run the
fallback on the same connection — whose trace is exactly the one `SET
statement_timeout` statement followed by the primary and the fallback, the
timeout not being re-applied — and return exactly the fallback's rows. -/
theorem C3_fallback_rows (behave : Behavior) (timeout : Int) (idx : Nat)
    (query backup : String) (rs : Rows)
    (hcancel : behave (some timeout) query = .canceled)
    (hbk : backup ≠ "")
    (hok : behave (some timeout) backup = .ok rs) :
    (_execute_query_w_backup behave timeout (idx, (query, backup))).result =
      Except.ok rs ∧
    (_execute_query_w_backup behave timeout (idx, (query, backup))).conn.trace =
      [setTimeoutStmt timeout, query, backup] ∧
    (_execute_query_w_backup behave timeout
      (idx, (query, backup))).conn.sessionTimeout = some timeout := by
  simp [_execute_query_w_backup, Conn.runQuery, Conn.runSet, Conn.fresh,
    Conn.close, hcancel, hbk, hok]

/-- C10 (implicit): the `SET statement_timeout` issued once per connection
persists for the session, so the fallback run after the primary's
cancellation executes under the same statement timeout; if the fallback is
itself cancelled by that timeout, the cancellation exception propagates
out of `_execute_query_w_backup` instead of the empty-result marker being
returned, and no second `SET` is issued. -/
theorem C10_fallback_cancel_propagates (behave : Behavior) (timeout : Int)
    (idx : Nat) (query backup : String)
    (hcancel : behave (some timeout) query = .canceled)
    (hbk : backup ≠ "")
    (hcancel2 : behave (some timeout) backup = .canceled) :
    (_execute_query_w_backup behave timeout (idx, (query, backup))).result =
      Except.error PyErr.queryCanceled ∧
    (_execute_query_w_backup behave timeout (idx, (query, backup))).result ≠
      Except.ok ([] : Rows) ∧
    (_execute_query_w_backup behave timeout (idx, (query, backup))).conn.trace =
      [setTimeoutStmt timeout, query, backup] := by
  simp [_execute_query_w_backup, Conn.runQuery, Conn.runSet, Conn.fresh,
    Conn.close, hcancel, hbk, hcancel2]

/-- C2: a query task whose primary query is cancelled by the statement
timeout and whose backup is absent/empty returns the empty-result marker
`[]` (a normal return, not an exception), and a batch containing such a
task returns normally with `[]` at that task's index. -/
theorem C2_timeout_no_fallback_empty (eng : DBengine) (behave : Behavior)
    (sched : List Nat) (pairs : List (String × String)) (j : Nat)
    (hj : j < pairs.length)
    (hperm : sched.Perm (List.range pairs.length))
    (hok : ∀ x ∈ pairs.enum,
      ∃ rs, (_execute_query_w_backup behave eng.timeout x).result = Except.ok rs)
    (hcancel : behave (some eng.timeout) (pairs[j]).1 = .canceled)
    (hnobk : (pairs[j]).2 = "") :
    (_execute_query_w_backup behave eng.timeout (j, pairs[j])).result =
      Except.ok ([] : Rows) ∧
    ∃ out, eng.execute_queries_w_backup behave sched pairs = some (.ok out) ∧
      out.length = pairs.length ∧ out[j]? = some ([] : Rows) := by
  have htask : (_execute_query_w_backup behave eng.timeout
      (j, pairs[j])).result = Except.ok ([] : Rows) := by
    simp [_execute_query_w_backup, Conn.runQuery, Conn.runSet, Conn.fresh,
      Conn.close, hcancel, hnobk]
  refine ⟨htask, ?_⟩
  have hb := batch_ok eng sched (_execute_query_w_backup behave eng.timeout)
    pairs.enum (by simpa [List.enum_length] using hperm) hok
  refine ⟨pairs.enum.map
    (fun x => okRows (_execute_query_w_backup behave eng.timeout x)), ?_, ?_, ?_⟩
  · rw [DBengine.execute_queries_w_backup]; exact hb
  · simp [List.enum_length]
  · have hj' : j < (pairs.enum.map (fun x =>
        okRows (_execute_query_w_backup behave eng.timeout x))).length := by
      simpa [List.enum_length] using hj
    rw [List.getElem?_eq_getElem hj']
    simp only [List.getElem_map, List.getElem_enum]
    simp [okRows, htask]

/-- C1: for every batch of N queries submitted to `execute_queries` /
`execute_queries_w_backup` (whose tasks all return normally), the returned
collection has exactly N entries and the entry at position i is the result
of the query submitted at position i — for any pool mode and any execution
order (schedule) of the pool. -/
theorem C1_batch_indexed_results (eng : DBengine) (behave : Behavior)
    (sched sched2 : List Nat) (queries : List String)
    (pairs : List (String × String))
    (hperm : sched.Perm (List.range queries.length))
    (hperm2 : sched2.Perm (List.range pairs.length))
    (hok : ∀ x ∈ queries.enum,
      ∃ rs, (_execute_query behave x).result = Except.ok rs)
    (hok2 : ∀ x ∈ pairs.enum,
      ∃ rs, (_execute_query_w_backup behave eng.timeout x).result = Except.ok rs) :
    (∃ out, eng.execute_queries behave sched queries = some (.ok out) ∧
      out.length = queries.length ∧
      ∀ i (hi : i < queries.length),
        out[i]? = some (okRows (_execute_query behave (i, queries[i])))) ∧
    (∃ out, eng.execute_queries_w_backup behave sched2 pairs = some (.ok out) ∧
      out.length = pairs.length ∧
      ∀ i (hi : i < pairs.length),
        out[i]? = some (okRows (_execute_query_w_backup behave eng.timeout
          (i, pairs[i])))) := by
  constructor
  · have hb := batch_ok eng sched (_execute_query behave) queries.enum
      (by simpa [List.enum_length] using hperm) hok
    refine ⟨queries.enum.map (fun x => okRows (_execute_query behave x)),
      ?_, ?_, ?_⟩
    · rw [DBengine.execute_queries]; exact hb
    · simp [List.enum_length]
    · intro i hi
      have hi' : i < (queries.enum.map
          (fun x => okRows (_execute_query behave x))).length := by
        simpa [List.enum_length] using hi
      rw [List.getElem?_eq_getElem hi']
      simp only [List.getElem_map, List.getElem_enum]
  · have hb := batch_ok eng sched2 (_execute_query_w_backup behave eng.timeout)
      pairs.enum (by simpa [List.enum_length] using hperm2) hok2
    refine ⟨pairs.enum.map
      (fun x => okRows (_execute_query_w_backup behave eng.timeout x)),
      ?_, ?_, ?_⟩
    · rw [DBengine.execute_queries_w_backup]; exact hb
    · simp [List.enum_length]
    · intro i hi
      have hi' : i < (pairs.enum.map
          (fun x => okRows (_execute_query_w_backup behave eng.timeout x))).length := by
        simpa [List.enum_length] using hi
      rw [List.getElem?_eq_getElem hi']
      simp only [List.getElem_map, List.getElem_enum]

/-- C7: an engine constructed with pool size 1 has no pool
(`Pool(pool_size) if pool_size > 1 else None`), so its batch execution is
the strictly sequential in-submission-order `list(map(...))`; it produces
exactly the same result as an engine constructed with a pool
(`pool_size > 1`) running the same batch under any pool schedule, for both
`execute_queries` and `execute_queries_w_backup`. -/
theorem C7_pool_size_one_sequential (uri s : String) (t p : Int) (hp : 1 < p)
    (behave : Behavior) (schedSeq schedSeq2 schedPar schedPar2 : List Nat)
    (queries : List String) (pairs : List (String × String))
    (hperm : schedPar.Perm (List.range queries.length))
    (hperm2 : schedPar2.Perm (List.range pairs.length)) :
    DBengine.init uri 1 t s =
      .ok { timeout := t, hasPool := false, conn := uri, dbschema := s } ∧
    DBengine.init uri p t s =
      .ok { timeout := t, hasPool := true, conn := uri, dbschema := s } ∧
    DBengine.execute_queries ⟨t, false, uri, s⟩ behave schedSeq queries =
      some (collectBatch (queries.enum.map (_execute_query behave))) ∧
    DBengine.execute_queries ⟨t, false, uri, s⟩ behave schedSeq queries =
      DBengine.execute_queries ⟨t, true, uri, s⟩ behave schedPar queries ∧
    DBengine.execute_queries_w_backup ⟨t, false, uri, s⟩ behave schedSeq2 pairs =
      DBengine.execute_queries_w_backup ⟨t, true, uri, s⟩ behave schedPar2 pairs := by
  have hpar : ∀ {α β : Type} (sched : List Nat) (f : α → β) (xs : List α),
      sched.Perm (List.range xs.length) →
      (DBengine._apply_func ⟨t, true, uri, s⟩ sched f xs) = some (xs.map f) :=
    fun sched f xs h => _apply_func_perm _ sched f xs h
  refine ⟨by simp [DBengine.init], by simp [DBengine.init, hp], ?_, ?_, ?_⟩
  · simp [DBengine.execute_queries, DBengine._apply_func]
  · rw [DBengine.execute_queries, DBengine.execute_queries,
      hpar schedPar (_execute_query behave) queries.enum
        (by simpa [List.enum_length] using hperm)]
    simp [DBengine._apply_func]
  · rw [DBengine.execute_queries_w_backup, DBengine.execute_queries_w_backup,
      hpar schedPar2 (_execute_query_w_backup behave t) pairs.enum
        (by simpa [List.enum_length] using hperm2)]
    simp [DBengine._apply_func]

/-- The `SET statement_timeout` statement is always the first statement on
a `_execute_query_w_backup` connection, whatever the timeout value — in
particular a zero or negative stored timeout is passed on verbatim. -/
theorem wbackup_trace_head (behave : Behavior) (t : Int)
    (args : Nat × (String × String)) :
    (_execute_query_w_backup behave t args).conn.trace.head? =
      some (setTimeoutStmt t) := by
  rcases args with ⟨i, q, b⟩
  simp only [_execute_query_w_backup, Conn.runQuery, Conn.runSet, Conn.fresh,
    Conn.close]
  cases behave (some t) q
  · simp
  · by_cases hbk : b = ""
    · simp [hbk]
    · cases behave (some t) b <;> simp [hbk]
  · simp

/-- C5 counterexample: constructing the engine with `pool_size = 0` and
`timeout = 0` is not rejected — `__init__` performs no validation and no
`InvalidConfigurationError` exists in the code — and the zero timeout is
later issued verbatim as `SET statement_timeout to 0;` (which PostgreSQL
treats as "no timeout"). -/
theorem C5_counterexample :
    DBengine.init "postgresql://localhost/holo" 0 0 "temp_0000000000" =
      Except.ok { timeout := 0, hasPool := false,
                  conn := "postgresql://localhost/holo",
                  dbschema := "temp_0000000000" } ∧
    (_execute_query_w_backup (fun _ _ => QueryOutcome.ok []) 0
      (0, ("SELECT 1", ""))).conn.trace.head? =
      some "SET statement_timeout to 0;" :=
  ⟨rfl, rfl⟩

/-- C5 amended: construction never validates and never rejects — for every
URI, pool size and timeout (including zero and negative ones) `__init__`
succeeds, stores the timeout unchanged, and builds a pool exactly when
`pool_size > 1`; the stored timeout, whatever its sign, is issued verbatim
as the first statement of every deadline-bounded connection. -/
theorem C5_amended_no_validation (uri s : String) (ps t : Int)
    (behave : Behavior) (args : Nat × (String × String)) :
    DBengine.init uri ps t s =
      Except.ok { timeout := t, hasPool := decide (ps > 1),
                  conn := uri, dbschema := s } ∧
    (_execute_query_w_backup behave t args).conn.trace.head? =
      some (setTimeoutStmt t) :=
  ⟨rfl, wbackup_trace_head behave t args⟩

/-- Error-raising oracle used for the C6 counterexample. -/
def behaveErr : Behavior := fun _ _ => .err "syntax error"

/-- C6 counterexample: in the single-query `DBengine.execute_query` there
is no `with` block and no `try`/`finally`, so when the query raises, the
`conn.close()` line is never reached and the connection is left open. -/
theorem C6_counterexample :
    (DBengine.execute_query ⟨60000, false, "postgresql://localhost/holo", "temp_c6"⟩
      behaveErr "SELECT bogus").conn.closed = false ∧
    (DBengine.execute_query ⟨60000, false, "postgresql://localhost/holo", "temp_c6"⟩
      behaveErr "SELECT bogus").result =
      Except.error (PyErr.dbError "syntax error") :=
  ⟨rfl, rfl⟩

/-- C6 amended: the batch worker functions (`_execute_query`,
`_execute_query_w_backup`) run inside a `with engine.connect()` block and
close their connection on every exit path — success, error or timeout —
but the single-query `DBengine.execute_query` closes its connection only
when the query succeeds. -/
theorem C6_amended_connection_close (behave : Behavior) (t : Int)
    (eng : DBengine) (args : Nat × String) (args2 : Nat × (String × String))
    (q : String) (rs : Rows) (hq : behave none q = QueryOutcome.ok rs) :
    (_execute_query behave args).conn.closed = true ∧
    (_execute_query_w_backup behave t args2).conn.closed = true ∧
    (eng.execute_query behave q).conn.closed = true := by
  refine ⟨?_, ?_, ?_⟩
  · rcases args with ⟨i, qq⟩
    simp only [_execute_query, Conn.runQuery, Conn.fresh, Conn.close]
    cases behave none qq <;> rfl
  · rcases args2 with ⟨i, qq, b⟩
    simp only [_execute_query_w_backup, Conn.runQuery, Conn.runSet, Conn.fresh,
      Conn.close]
    cases behave (some t) qq
    · rfl
    · by_cases hbk : b = ""
      · simp [hbk]
      · cases behave (some t) b <;> simp [hbk]
    · rfl
  · simp [DBengine.execute_query, Conn.runQuery, Conn.fresh, Conn.close, hq]

/-- All-succeeding oracle used for the C6 witness. -/
def behaveOk : Behavior := fun _ _ => .ok [["1"]]

theorem C6_amended_witness :
    behaveOk none "SELECT 1" = QueryOutcome.ok [["1"]] ∧
    ((_execute_query behaveOk (0, "SELECT 1")).conn.closed = true ∧
     (_execute_query_w_backup behaveOk 100 (1, ("SELECT a", "SELECT b"))).conn.closed = true ∧
     (DBengine.execute_query ⟨100, false, "postgresql://localhost/holo", "temp_w6"⟩
       behaveOk "SELECT 1").conn.closed = true) :=
  ⟨rfl, C6_amended_connection_close behaveOk 100
    ⟨100, false, "postgresql://localhost/holo", "temp_w6"⟩ (0, "SELECT 1")
    (1, ("SELECT a", "SELECT b")) "SELECT 1" [["1"]] rfl⟩

/-- Oracle making exactly the query `"bad"` fail, used for C4. -/
def behaveC4 : Behavior := fun _ q =>
  if q = "bad" then .err "boom" else .ok [["r"]]

/-- C4 counterexample: one failing query among three makes the whole batch
call raise (`_execute_query` has no `try`/`except`, so the worker's
exception is re-raised by `Pool.map` / propagates through `map`): no
result collection with a per-index error is returned, in either pool
mode. -/
theorem C4_counterexample :
    DBengine.execute_queries
      ⟨60000, false, "postgresql://localhost/holo", "temp_c4"⟩ behaveC4
      [0, 1, 2] ["good", "bad", "good2"] =
      some (.error (.dbError "boom")) ∧
    DBengine.execute_queries
      ⟨60000, true, "postgresql://localhost/holo", "temp_c4"⟩ behaveC4
      [2, 0, 1] ["good", "bad", "good2"] =
      some (.error (.dbError "boom")) ∧
    ¬ ∃ out, DBengine.execute_queries
      ⟨60000, false, "postgresql://localhost/holo", "temp_c4"⟩ behaveC4
      [0, 1, 2] ["good", "bad", "good2"] = some (.ok out) := by
  refine ⟨by decide, by decide, ?_⟩
  rintro ⟨out, h⟩
  rw [show DBengine.execute_queries
      ⟨60000, false, "postgresql://localhost/holo", "temp_c4"⟩ behaveC4
      [0, 1, 2] ["good", "bad", "good2"] =
      some (.error (.dbError "boom")) from by decide] at h
  simp at h

/-- C4 amended: a task's execution failure is not captured per index —
the first failing task's exception propagates out of the batch call, which
therefore raises instead of returning a result collection; sibling tasks'
results are discarded. -/
theorem C4_amended_error_propagates (eng : DBengine) (behave : Behavior)
    (sched : List Nat) (qs1 qs2 : List String) (q : String) (e : PyErr)
    (hperm : sched.Perm (List.range (qs1 ++ q :: qs2).length))
    (hok : ∀ x ∈ qs1.enum, ∃ rs, (_execute_query behave x).result = Except.ok rs)
    (herr : (_execute_query behave (qs1.length, q)).result = Except.error e) :
    eng.execute_queries behave sched (qs1 ++ q :: qs2) = some (.error e) := by
  rw [DBengine.execute_queries,
    _apply_func_perm eng sched _ _ (by simpa [List.enum_length] using hperm)]
  have hsplit : (qs1 ++ q :: qs2).enum =
      qs1.enum ++ (qs1.length, q) :: qs2.enumFrom (qs1.length + 1) := by
    simp [List.enum, List.enumFrom_append]
  have hcb : collectBatch ((qs1 ++ q :: qs2).enum.map (_execute_query behave)) =
      .error e := by
    rw [hsplit, List.map_append, List.map_cons]
    refine collectBatch_error _ _ _ e ?_ herr
    intro x hx
    obtain ⟨y, hy, rfl⟩ := List.mem_map.1 hx
    exact hok y hy
  simp [hcb]

theorem C4_amended_witness :
    ((_execute_query behaveC4 (1, "bad")).result =
      Except.error (PyErr.dbError "boom")) ∧
    DBengine.execute_queries
      ⟨60000, true, "postgresql://localhost/holo", "temp_c4"⟩ behaveC4
      [1, 2, 0] (["good"] ++ "bad" :: ["good2"]) =
      some (.error (.dbError "boom")) :=
  ⟨by decide,
    C4_amended_error_propagates
      ⟨60000, true, "postgresql://localhost/holo", "temp_c4"⟩ behaveC4
      [1, 2, 0] ["good"] ["good2"] "bad" (.dbError "boom")
      (by decide)
      (fun x hx => by
        simp only [List.enum] at hx
        simp at hx
        subst hx
        exact ⟨[["r"]], by decide⟩)
      (by decide)⟩

/-- C8: `create_db_table_from_query(name, query)` issues exactly two
statements in order — `DROP TABLE IF EXISTS "<name>"` then
`CREATE TABLE "<name>" AS (<query>)` — on one connection, with no
transaction wrapper around them (the trace is exactly those two
statements): against any table-state semantics in which the drop removes
`name` and the create then fails, the run stops at the failure with the
drop *not* rolled back, leaving `name` absent. -/
theorem C8_drop_create_not_atomic (eng : DBengine) (behave : Behavior)
    (name query : String) (st : List String)
    (sem : String → List String → Option (List String)) (r0 : Rows)
    (hdropOk : behave none (drop_table_template name) = .ok r0)
    (hdropSem : sem (drop_table_template name) st =
      some (st.filter (fun t => decide (t ≠ name))))
    (hcreateSem : sem (create_table_template name query)
      (st.filter (fun t => decide (t ≠ name))) = none) :
    (eng.create_db_table_from_query behave name query).conn.trace =
      [drop_table_template name, create_table_template name query] ∧
    runStmts sem st (eng.create_db_table_from_query behave name query).conn.trace =
      (st.filter (fun t => decide (t ≠ name)), false) ∧
    name ∉ (runStmts sem st
      (eng.create_db_table_from_query behave name query).conn.trace).1 := by
  have htrace : (eng.create_db_table_from_query behave name query).conn.trace =
      [drop_table_template name, create_table_template name query] := by
    simp only [DBengine.create_db_table_from_query, Conn.runQuery, Conn.fresh,
      Conn.close, hdropOk]
    cases behave none (create_table_template name query) <;> simp
  have hrun : runStmts sem st
      (eng.create_db_table_from_query behave name query).conn.trace =
      (st.filter (fun t => decide (t ≠ name)), false) := by
    rw [htrace]
    simp only [runStmts, hdropSem, hcreateSem]
  refine ⟨htrace, hrun, ?_⟩
  rw [hrun]
  simp [List.mem_filter]

/-- Table-state semantics for the C8 witness: the drop statement removes
`t1`, every other statement (in particular the create) fails. -/
def semC8 : String → List String → Option (List String) := fun s tables =>
  if s = drop_table_template "t1" then
    some (tables.filter (fun t => decide (t ≠ "t1")))
  else none

/-- Oracle for the C8 witness: the drop succeeds, the create raises. -/
def behaveC8 : Behavior := fun _ s =>
  if s = drop_table_template "t1" then .ok [] else .err "could not create"

theorem C8_drop_create_witness :
    behaveC8 none (drop_table_template "t1") = QueryOutcome.ok [] ∧
    ((DBengine.create_db_table_from_query
        ⟨60000, false, "postgresql://localhost/holo", "temp_c8"⟩ behaveC8 "t1"
        "SELECT * FROM raw").conn.trace =
      [drop_table_template "t1", create_table_template "t1" "SELECT * FROM raw"] ∧
     runStmts semC8 ["t1", "t2"]
       (DBengine.create_db_table_from_query
         ⟨60000, false, "postgresql://localhost/holo", "temp_c8"⟩ behaveC8 "t1"
         "SELECT * FROM raw").conn.trace =
       (["t1", "t2"].filter (fun t => decide (t ≠ "t1")), false) ∧
     "t1" ∉ (runStmts semC8 ["t1", "t2"]
       (DBengine.create_db_table_from_query
         ⟨60000, false, "postgresql://localhost/holo", "temp_c8"⟩ behaveC8 "t1"
         "SELECT * FROM raw").conn.trace).1) :=
  ⟨by decide,
    C8_drop_create_not_atomic
      ⟨60000, false, "postgresql://localhost/holo", "temp_c8"⟩ behaveC8 "t1"
      "SELECT * FROM raw" ["t1", "t2"] semC8 [] (by decide) (by decide) (by decide)⟩

/-- Oracle for the C3 witness: the primary query times out, the cheaper
fallback succeeds. -/
def behaveC3 : Behavior := fun _ q =>
  if q = "SELECT slow" then .canceled
  else if q = "SELECT approx" then .ok [["a"]]
  else .ok []

theorem C3_fallback_witness :
    behaveC3 (some 50) "SELECT slow" = QueryOutcome.canceled ∧
    ((_execute_query_w_backup behaveC3 50
        (3, ("SELECT slow", "SELECT approx"))).result = Except.ok [["a"]] ∧
     (_execute_query_w_backup behaveC3 50
        (3, ("SELECT slow", "SELECT approx"))).conn.trace =
       [setTimeoutStmt 50, "SELECT slow", "SELECT approx"] ∧
     (_execute_query_w_backup behaveC3 50
        (3, ("SELECT slow", "SELECT approx"))).conn.sessionTimeout = some 50) :=
  ⟨by decide, C3_fallback_rows behaveC3 50 3 "SELECT slow" "SELECT approx"
    [["a"]] (by decide) (by decide) (by decide)⟩

/-- Oracle for the C10 witness: every query is cancelled by the timeout. -/
def behaveC10 : Behavior := fun _ _ => .canceled

theorem C10_fallback_cancel_witness :
    behaveC10 (some 50) "SELECT slow" = QueryOutcome.canceled ∧
    ((_execute_query_w_backup behaveC10 50
        (0, ("SELECT slow", "SELECT approx"))).result =
      Except.error PyErr.queryCanceled ∧
     (_execute_query_w_backup behaveC10 50
        (0, ("SELECT slow", "SELECT approx"))).result ≠ Except.ok ([] : Rows) ∧
     (_execute_query_w_backup behaveC10 50
        (0, ("SELECT slow", "SELECT approx"))).conn.trace =
       [setTimeoutStmt 50, "SELECT slow", "SELECT approx"]) :=
  ⟨rfl, C10_fallback_cancel_propagates behaveC10 50 0 "SELECT slow"
    "SELECT approx" rfl (by decide) rfl⟩

/-- Oracle for the C2 witness: only `"SELECT slow"` is cancelled. -/
def behaveC2 : Behavior := fun _ q =>
  if q = "SELECT slow" then .canceled else .ok [["v"]]

theorem C2_timeout_witness :
    behaveC2 (some (50 : Int)) "SELECT slow" = QueryOutcome.canceled ∧
    (_execute_query_w_backup behaveC2 50 (1, ("SELECT slow", ""))).result =
      Except.ok ([] : Rows) ∧
    (∃ out, DBengine.execute_queries_w_backup
        ⟨50, true, "postgresql://localhost/holo", "temp_c2"⟩ behaveC2 [1, 0]
        [("SELECT fast", "SELECT backup"), ("SELECT slow", "")] =
        some (.ok out) ∧
      out.length = 2 ∧ out[1]? = some ([] : Rows)) := by
  have h := C2_timeout_no_fallback_empty
    ⟨50, true, "postgresql://localhost/holo", "temp_c2"⟩ behaveC2 [1, 0]
    [("SELECT fast", "SELECT backup"), ("SELECT slow", "")] 1 (by decide)
    (by decide)
    (by
      intro x hx
      simp [List.enum, List.enumFrom] at hx
      rcases hx with h1 | h1 <;> subst h1
      · exact ⟨[["v"]], by decide⟩
      · exact ⟨[], by decide⟩)
    (by decide) (by decide)
  exact ⟨by decide, h.1, h.2⟩

theorem C1_batch_indexed_witness :
    ([1, 0] : List Nat).Perm (List.range 2) ∧
    ((∃ out, DBengine.execute_queries
        ⟨50, true, "postgresql://localhost/holo", "temp_c1"⟩ behaveOk [1, 0]
        ["q1", "q2"] = some (.ok out) ∧
      out.length = 2 ∧
      ∀ i (hi : i < 2),
        out[i]? = some (okRows (_execute_query behaveOk
          (i, (["q1", "q2"] : List String)[i])))) ∧
     (∃ out, DBengine.execute_queries_w_backup
        ⟨50, true, "postgresql://localhost/holo", "temp_c1"⟩ behaveOk [0]
        [("p1", "b1")] = some (.ok out) ∧
      out.length = 1 ∧
      ∀ i (hi : i < 1),
        out[i]? = some (okRows (_execute_query_w_backup behaveOk 50
          (i, ([("p1", "b1")] : List (String × String))[i]))))) := by
  have h := C1_batch_indexed_results
    ⟨50, true, "postgresql://localhost/holo", "temp_c1"⟩ behaveOk [1, 0] [0]
    ["q1", "q2"] [("p1", "b1")] (by decide) (by decide)
    (by
      intro x hx
      simp [List.enum, List.enumFrom] at hx
      rcases hx with h1 | h1 <;> subst h1 <;> exact ⟨[["1"]], by decide⟩)
    (by
      intro x hx
      simp [List.enum, List.enumFrom] at hx
      subst hx
      exact ⟨[["1"]], by decide⟩)
  exact ⟨by decide, h.1, h.2⟩

theorem C7_pool_size_one_witness :
    (1 : Int) < 20 ∧
    (DBengine.init "postgresql://localhost/holo" 1 60000 "temp_c7" =
      .ok { timeout := 60000, hasPool := false,
            conn := "postgresql://localhost/holo", dbschema := "temp_c7" } ∧
     DBengine.init "postgresql://localhost/holo" 20 60000 "temp_c7" =
      .ok { timeout := 60000, hasPool := true,
            conn := "postgresql://localhost/holo", dbschema := "temp_c7" } ∧
     DBengine.execute_queries
        ⟨60000, false, "postgresql://localhost/holo", "temp_c7"⟩ behaveOk []
        ["a", "b"] =
      some (collectBatch ((["a", "b"] : List String).enum.map
        (_execute_query behaveOk))) ∧
     DBengine.execute_queries
        ⟨60000, false, "postgresql://localhost/holo", "temp_c7"⟩ behaveOk []
        ["a", "b"] =
      DBengine.execute_queries
        ⟨60000, true, "postgresql://localhost/holo", "temp_c7"⟩ behaveOk [1, 0]
        ["a", "b"] ∧
     DBengine.execute_queries_w_backup
        ⟨60000, false, "postgresql://localhost/holo", "temp_c7"⟩ behaveOk []
        [("x", "y")] =
      DBengine.execute_queries_w_backup
        ⟨60000, true, "postgresql://localhost/holo", "temp_c7"⟩ behaveOk [0]
        [("x", "y")]) :=
  ⟨by decide,
    C7_pool_size_one_sequential "postgresql://localhost/holo" "temp_c7" 60000 20
      (by decide) behaveOk [] [] [1, 0] [0] ["a", "b"] [("x", "y")]
      (by decide) (by decide)⟩

end HoloClean
